import Mathlib

/-!
Verification of the checkout page of the ScholarStream client
(`src/scholarstream-client/src/pages/Checkout.jsx`).

The page is modelled as a shallow embedding:

* The scholarship record, the session user and the form input are plain
  structures whose fields mirror the JS objects.
* JS truthiness defaulting (`x || 0`, `x || ''`) is modelled on `Option`
  values by `truthyOrZero` / `truthyOrEmpty` (`0` and `""` are falsy in JS,
  which these functions reproduce).
* Every awaited external call inside `onSubmit` (Stripe's
  `createPaymentMethod` and `confirmCardPayment`, the axios POSTs to
  `/applications` and `/payments`) is an input: its resolution is recorded in
  an `Env` value, where `CallOutcome.throws` stands for a rejected promise
  (which, in the source, jumps to the `catch` block).
* `onSubmit` returns the ordered list of observable events the handler
  performs: `setProcessing` updates, `toast.error` notifications, successful
  POSTs (a throwing POST persists nothing and emits no post event), the
  resolution of the charge-confirmation await, and `navigate` calls.
* The submit button's `disabled` expression and the payment-intent
  `useEffect` (re-run whenever its `totalAmount` dependency changes) are
  modelled separately by `submitDisabled` and `intentRequests`.
-/

namespace ScholarStream

set_option maxHeartbeats 1000000 in
/-- JS `x || 0` on a possibly-`undefined` number (`none` = undefined/null;
`0` is falsy in JS, so `0 || 0 = 0`, which this reproduces). -/
def truthyOrZero : Option Int → Int
  | none => 0
  | some v => if v = 0 then 0 else v

/-- JS `x || ''` on a possibly-`undefined` string (`""` is falsy in JS). -/
def truthyOrEmpty : Option String → String
  | none => ""
  | some v => if v = "" then "" else v

/-- The scholarship record fetched from `/scholarships/{id}`.  The two fee
fields may be absent (`undefined`) in the backend data, hence `Option`. -/
structure Scholarship where
  mongoId : String
  universityName : String
  universityCountry : String
  universityImage : String
  scholarshipName : String
  scholarshipCategory : String
  subjectCategory : String
  degree : String
  applicationFees : Option Int
  serviceCharge : Option Int
deriving DecidableEq

/-- The session user from the auth context. -/
structure User where
  displayName : String
  email : String
  uid : String
deriving DecidableEq

/-- The react-hook-form field values (`studyGap` is optional). -/
structure FormData where
  phone : String
  address : String
  sscResult : String
  hscResult : String
  studyGap : Option String
deriving DecidableEq

/-- Checkout.jsx line 25 / line 332:
`(scholarship.applicationFees || 0) + (scholarship.serviceCharge || 0)`. -/
def totalAmount (s : Scholarship) : Int :=
  truthyOrZero s.applicationFees + truthyOrZero s.serviceCharge

/-- The submit button's `disabled` expression (line 282):
`!stripe || !clientSecret || processing`.  `stripeReady` models `stripe`
being non-null; `clientSecret` starts as `''` (falsy) and is set only from a
payment-intent response. -/
def submitDisabled (stripeReady : Bool) (clientSecret : String)
    (processing : Bool) : Bool :=
  !stripeReady || clientSecret == "" || processing

/-- Dependency-change points of the `useEffect` (lines 28-39): given the
previous committed value of `totalAmount` and the later ones, keep exactly
the values at which the dependency differs from the previous commit. -/
def depChangesAux (prev : Int) : List Int → List Int
  | [] => []
  | t :: ts => if t = prev then depChangesAux t ts else t :: depChangesAux t ts

/-- The effect runs on the first commit and whenever its `totalAmount`
dependency changes. -/
def depChanges : List Int → List Int
  | [] => []
  | t :: ts => t :: depChangesAux t ts

/-- The amounts posted to `/create-payment-intent` over a render history of
`totalAmount` values: the effect body runs at each dependency change and
issues the request only when `totalAmount > 0` (line 29). -/
def intentRequests (hist : List Int) : List Int :=
  (depChanges hist).filter (fun t => decide (0 < t))

/-- The application record posted to `/applications` (lines 79-100 and
115-136; the two object literals differ only in `paymentStatus`, abstracted
here as the `payStat` argument, and in the timestamp). -/
structure ApplicationData where
  scholarshipId : String
  userId : String
  userName : String
  userEmail : String
  universityName : String
  universityCountry : String
  scholarshipName : String
  scholarshipCategory : String
  subjectCategory : String
  degree : String
  applicationFees : Option Int
  serviceCharge : Option Int
  applicationStatus : String
  paymentStatus : String
  applicationDate : String
  phone : String
  address : String
  sscResult : String
  hscResult : String
  studyGap : String
deriving DecidableEq

/-- Builds the application record exactly as the object literals at lines
79-100 / 115-136 do: scholarship fee fields are copied raw (possibly
`undefined`), `studyGap` gets the `|| ''` default. -/
def buildApplicationData (s : Scholarship) (u : User) (fd : FormData)
    (payStat : String) (now : String) : ApplicationData :=
  { scholarshipId := s.mongoId
    userId := u.uid
    userName := u.displayName
    userEmail := u.email
    universityName := s.universityName
    universityCountry := s.universityCountry
    scholarshipName := s.scholarshipName
    scholarshipCategory := s.scholarshipCategory
    subjectCategory := s.subjectCategory
    degree := s.degree
    applicationFees := s.applicationFees
    serviceCharge := s.serviceCharge
    applicationStatus := "pending"
    paymentStatus := payStat
    applicationDate := now
    phone := fd.phone
    address := fd.address
    sscResult := fd.sscResult
    hscResult := fd.hscResult
    studyGap := truthyOrEmpty fd.studyGap }

/-- The payment record posted to `/payments` (lines 141-148). -/
structure PaymentData where
  email : String
  transactionId : String
  amount : Int
  scholarshipId : String
  scholarshipName : String
  date : String
deriving DecidableEq

/-- Builds the payment record of lines 141-148. -/
def buildPaymentData (s : Scholarship) (u : User) (txId : String)
    (amount : Int) (now : String) : PaymentData :=
  { email := u.email
    transactionId := txId
    amount := amount
    scholarshipId := s.mongoId
    scholarshipName := s.scholarshipName
    date := now }

/-- Resolution of `stripe.createPaymentMethod` (line 57): an `error` field
(with its `message`) or a payment method id. -/
structure PaymentMethodResult where
  error : Option String
  paymentMethodId : String
deriving DecidableEq

/-- The `paymentIntent` object of a resolved `confirmCardPayment`. -/
structure PaymentIntent where
  id : String
  status : String
deriving DecidableEq

/-- Resolution of `stripe.confirmCardPayment` (line 73), destructured in the
source as `{ error: confirmError, paymentIntent }`. -/
structure ConfirmResult where
  error : Option String
  paymentIntent : PaymentIntent
deriving DecidableEq

/-- Outcome of an awaited external call: it resolves with a value, or the
promise rejects (`throws`), which transfers control to the `catch` block. -/
inductive CallOutcome (α : Type) where
  | ok : α → CallOutcome α
  | throws : CallOutcome α
deriving DecidableEq

/-- The environment of one submission: readiness of the Stripe objects and
the card element, and the resolution of each awaited external call.
`nowApp` / `nowPay` are the `new Date().toISOString()` timestamps taken when
building the application record and the payment record. -/
structure Env where
  stripeReady : Bool
  elementsReady : Bool
  cardPresent : Bool
  createPaymentMethod : CallOutcome PaymentMethodResult
  confirmCardPayment : CallOutcome ConfirmResult
  postApplication : CallOutcome Unit
  postPayment : CallOutcome Unit
  nowApp : String
  nowPay : String
deriving DecidableEq

/-- Navigation targets of the workflow (lines 104-109 and 150-157), with the
router `state` they carry. -/
inductive Nav where
  | paymentFailed (scholarshipName errMsg : String)
  | paymentSuccess (scholarshipName universityName : String)
      (amount : Int) (transactionId : String)
deriving DecidableEq

/-- Observable events of one run of `onSubmit`, in program order.
`postApplication`/`postPayment` are emitted only when the POST resolves (a
rejected POST persists nothing); `confirmResolved` marks the resolution of
the `confirmCardPayment` await. -/
inductive Event where
  | setProcessing (b : Bool)
  | toastError (msg : String)
  | confirmResolved (cr : ConfirmResult)
  | postApplication (a : ApplicationData)
  | postPayment (p : PaymentData)
  | navigate (n : Nav)
deriving DecidableEq

/-- The body of the `try` block of `onSubmit` (lines 55-158), together with
the effect of the `catch` block (lines 159-161): a rejection of any awaited
call replaces the rest of the body by the generic
`toast.error('Payment processing failed')`. -/
def tryEvents (env : Env) (s : Scholarship) (u : User) (fd : FormData) :
    List Event :=
  match env.createPaymentMethod with
  | .throws => [Event.toastError "Payment processing failed"]
  | .ok pm =>
    match pm.error with
    | some msg => [Event.toastError msg, Event.setProcessing false]
    | none =>
      match env.confirmCardPayment with
      | .throws => [Event.toastError "Payment processing failed"]
      | .ok cr =>
        Event.confirmResolved cr ::
        match cr.error with
        | some msg =>
          match env.postApplication with
          | .throws => [Event.toastError "Payment processing failed"]
          | .ok _ =>
            [Event.postApplication
                (buildApplicationData s u fd "unpaid" env.nowApp),
              Event.navigate (Nav.paymentFailed s.scholarshipName msg)]
        | none =>
          if cr.paymentIntent.status == "succeeded" then
            match env.postApplication with
            | .throws => [Event.toastError "Payment processing failed"]
            | .ok _ =>
              match env.postPayment with
              | .throws =>
                [Event.postApplication
                    (buildApplicationData s u fd "paid" env.nowApp),
                  Event.toastError "Payment processing failed"]
              | .ok _ =>
                [Event.postApplication
                    (buildApplicationData s u fd "paid" env.nowApp),
                  Event.postPayment
                    (buildPaymentData s u cr.paymentIntent.id
                      (totalAmount s) env.nowPay),
                  Event.navigate
                    (Nav.paymentSuccess s.scholarshipName s.universityName
                      (totalAmount s) cr.paymentIntent.id)]
          else []

/-- The `onSubmit` handler (lines 41-165).  The early return at lines 42-44
emits nothing; a missing card element (lines 50-53) only toggles the
processing flag; otherwise the `try` body runs and the `finally` block
(lines 162-164) always appends `setProcessing(false)`. -/
def onSubmit (env : Env) (s : Scholarship) (u : User) (fd : FormData) :
    List Event :=
  if !env.stripeReady || !env.elementsReady then []
  else if !env.cardPresent then
    [Event.setProcessing true, Event.setProcessing false]
  else
    Event.setProcessing true :: (tryEvents env s u fd ++
      [Event.setProcessing false])

/-- Application records successfully persisted during a run. -/
def appEvents : List Event → List ApplicationData
  | [] => []
  | Event.postApplication a :: tr => a :: appEvents tr
  | _ :: tr => appEvents tr

/-- Payment records successfully persisted during a run. -/
def payEvents : List Event → List PaymentData
  | [] => []
  | Event.postPayment p :: tr => p :: payEvents tr
  | _ :: tr => payEvents tr

/-- Whether an event is the resolution of the charge-confirmation await. -/
def isConfirmResolved : Event → Bool
  | Event.confirmResolved _ => true
  | _ => false

/-- The control-flow condition under which an exception escapes to the
`catch` block: the guards pass and one of the awaited calls rejects at the
point the run actually reaches it. -/
def uncaughtExn (env : Env) : Bool :=
  env.stripeReady && env.elementsReady && env.cardPresent &&
    match env.createPaymentMethod with
    | .throws => true
    | .ok pm =>
      match pm.error with
      | some _ => false
      | none =>
        match env.confirmCardPayment with
        | .throws => true
        | .ok cr =>
          match cr.error with
          | some _ =>
            (match env.postApplication with
              | .throws => true
              | .ok _ => false)
          | none =>
            if cr.paymentIntent.status == "succeeded" then
              match env.postApplication with
              | .throws => true
              | .ok _ =>
                (match env.postPayment with
                  | .throws => true
                  | .ok _ => false)
            else false

/-! ## Concrete example inputs used by witnesses and counterexamples -/

/-- A concrete scholarship record. -/
def exS : Scholarship :=
  { mongoId := "s1"
    universityName := "Uni"
    universityCountry := "NL"
    universityImage := "img.png"
    scholarshipName := "Sch"
    scholarshipCategory := "Full fund"
    subjectCategory := "Engineering"
    degree := "Bachelor"
    applicationFees := some 100
    serviceCharge := some 50 }

/-- A concrete session user. -/
def exU : User :=
  { displayName := "Ada", email := "ada@example.com", uid := "u1" }

/-- A concrete form submission. -/
def exFd : FormData :=
  { phone := "0123", address := "Main St 1", sscResult := "5.00"
    hscResult := "5.00", studyGap := none }

/-- Environment of a fully successful submission. -/
def envSuccess : Env :=
  { stripeReady := true
    elementsReady := true
    cardPresent := true
    createPaymentMethod := CallOutcome.ok ⟨none, "pm_1"⟩
    confirmCardPayment := CallOutcome.ok ⟨none, ⟨"pi_123", "succeeded"⟩⟩
    postApplication := CallOutcome.ok ()
    postPayment := CallOutcome.ok ()
    nowApp := "2025-01-01T00:00:00.000Z"
    nowPay := "2025-01-01T00:00:01.000Z" }

/-- Environment in which card tokenization resolves with an error. -/
def envMethodErr : Env :=
  { envSuccess with
    createPaymentMethod :=
      CallOutcome.ok ⟨some "Your card number is incomplete", "pm_1"⟩ }

/-- Environment in which charge confirmation resolves with an error. -/
def envConfirmErr : Env :=
  { envSuccess with
    confirmCardPayment :=
      CallOutcome.ok ⟨some "Your card was declined", ⟨"", ""⟩⟩ }

/-- Environment in which everything succeeds except that the POST to
`/payments` rejects. -/
def envPayThrows : Env :=
  { envSuccess with postPayment := CallOutcome.throws }

/-- Environment in which confirmation resolves with an error and the POST to
`/applications` rejects. -/
def envAppThrows : Env :=
  { envConfirmErr with postApplication := CallOutcome.throws }

/-! ## Claim theorems -/

/-- Claim C1: when charge confirmation succeeds (no error, status
`succeeded`) with transaction id `txId`, the workflow persists the
application record with paymentStatus `"paid"`, then the payment record with
transaction id `txId` and amount `totalAmount s`, then navigates to the
success view carrying scholarship name, university name, amount and
transaction id, in exactly that order (the trace equation fixes the order);
the external POSTs are assumed to resolve. -/
theorem confirm_success_sequence (env : Env) (s : Scholarship) (u : User)
    (fd : FormData) (pmId txId : String)
    (h1 : env.stripeReady = true) (h2 : env.elementsReady = true)
    (h3 : env.cardPresent = true)
    (h4 : env.createPaymentMethod = CallOutcome.ok ⟨none, pmId⟩)
    (h5 : env.confirmCardPayment = CallOutcome.ok ⟨none, ⟨txId, "succeeded"⟩⟩)
    (h6 : env.postApplication = CallOutcome.ok ())
    (h7 : env.postPayment = CallOutcome.ok ()) :
    onSubmit env s u fd =
      [Event.setProcessing true,
        Event.confirmResolved ⟨none, ⟨txId, "succeeded"⟩⟩,
        Event.postApplication (buildApplicationData s u fd "paid" env.nowApp),
        Event.postPayment
          (buildPaymentData s u txId (totalAmount s) env.nowPay),
        Event.navigate
          (Nav.paymentSuccess s.scholarshipName s.universityName
            (totalAmount s) txId),
        Event.setProcessing false]
      ∧ (buildApplicationData s u fd "paid" env.nowApp).paymentStatus = "paid"
      ∧ (buildPaymentData s u txId (totalAmount s) env.nowPay).transactionId
          = txId
      ∧ (buildPaymentData s u txId (totalAmount s) env.nowPay).amount
          = totalAmount s := by
  refine ⟨?_, rfl, rfl, rfl⟩
  simp [onSubmit, h1, h2, h3, tryEvents, h4, h5, h6, h7]

/-- Witness for C1 at a concrete successful submission. -/
theorem confirm_success_sequence_witness :
    onSubmit envSuccess exS exU exFd =
      [Event.setProcessing true,
        Event.confirmResolved ⟨none, ⟨"pi_123", "succeeded"⟩⟩,
        Event.postApplication
          (buildApplicationData exS exU exFd "paid" envSuccess.nowApp),
        Event.postPayment
          (buildPaymentData exS exU "pi_123" (totalAmount exS)
            envSuccess.nowPay),
        Event.navigate
          (Nav.paymentSuccess exS.scholarshipName exS.universityName
            (totalAmount exS) "pi_123"),
        Event.setProcessing false] :=
  (confirm_success_sequence envSuccess exS exU exFd "pm_1" "pi_123"
    rfl rfl rfl rfl rfl rfl rfl).1

/-- Claim C2: when charge confirmation resolves with an error message `msg`,
the workflow persists exactly one application record, with paymentStatus
`"unpaid"`, then navigates to the failure view carrying the scholarship name
and exactly `msg`; no payment record is written.  The POST to
`/applications` is assumed to resolve. -/
theorem confirm_error_sequence (env : Env) (s : Scholarship) (u : User)
    (fd : FormData) (pmId msg : String) (pi : PaymentIntent)
    (h1 : env.stripeReady = true) (h2 : env.elementsReady = true)
    (h3 : env.cardPresent = true)
    (h4 : env.createPaymentMethod = CallOutcome.ok ⟨none, pmId⟩)
    (h5 : env.confirmCardPayment = CallOutcome.ok ⟨some msg, pi⟩)
    (h6 : env.postApplication = CallOutcome.ok ()) :
    onSubmit env s u fd =
      [Event.setProcessing true,
        Event.confirmResolved ⟨some msg, pi⟩,
        Event.postApplication
          (buildApplicationData s u fd "unpaid" env.nowApp),
        Event.navigate (Nav.paymentFailed s.scholarshipName msg),
        Event.setProcessing false]
      ∧ appEvents (onSubmit env s u fd)
          = [buildApplicationData s u fd "unpaid" env.nowApp]
      ∧ payEvents (onSubmit env s u fd) = []
      ∧ (buildApplicationData s u fd "unpaid" env.nowApp).paymentStatus
          = "unpaid" := by
  have htr : onSubmit env s u fd =
      [Event.setProcessing true,
        Event.confirmResolved ⟨some msg, pi⟩,
        Event.postApplication
          (buildApplicationData s u fd "unpaid" env.nowApp),
        Event.navigate (Nav.paymentFailed s.scholarshipName msg),
        Event.setProcessing false] := by
    simp [onSubmit, h1, h2, h3, tryEvents, h4, h5, h6]
  refine ⟨htr, ?_, ?_, rfl⟩ <;> simp [htr, appEvents, payEvents]

/-- Witness for C2 at a concrete declined-card submission. -/
theorem confirm_error_sequence_witness :
    appEvents (onSubmit envConfirmErr exS exU exFd)
        = [buildApplicationData exS exU exFd "unpaid" envConfirmErr.nowApp]
      ∧ payEvents (onSubmit envConfirmErr exS exU exFd) = [] :=
  ⟨(confirm_error_sequence envConfirmErr exS exU exFd "pm_1"
      "Your card was declined" ⟨"", ""⟩ rfl rfl rfl rfl rfl rfl).2.1,
    (confirm_error_sequence envConfirmErr exS exU exFd "pm_1"
      "Your card was declined" ⟨"", ""⟩ rfl rfl rfl rfl rfl rfl).2.2.1⟩

/-- Claim C8: when card tokenization resolves with an error message `msg`,
the workflow surfaces `msg` as a notification, clears the processing flag
(returning to idle), and persists neither an application record nor a
payment record. -/
theorem tokenization_error_no_records (env : Env) (s : Scholarship)
    (u : User) (fd : FormData) (pmId msg : String)
    (h1 : env.stripeReady = true) (h2 : env.elementsReady = true)
    (h3 : env.cardPresent = true)
    (h4 : env.createPaymentMethod = CallOutcome.ok ⟨some msg, pmId⟩) :
    onSubmit env s u fd =
      [Event.setProcessing true, Event.toastError msg,
        Event.setProcessing false, Event.setProcessing false]
      ∧ appEvents (onSubmit env s u fd) = []
      ∧ payEvents (onSubmit env s u fd) = [] := by
  have htr : onSubmit env s u fd =
      [Event.setProcessing true, Event.toastError msg,
        Event.setProcessing false, Event.setProcessing false] := by
    simp [onSubmit, h1, h2, h3, tryEvents, h4]
  refine ⟨htr, ?_, ?_⟩ <;> simp [htr, appEvents, payEvents]

/-- Witness for C8 at a concrete incomplete-card submission. -/
theorem tokenization_error_no_records_witness :
    onSubmit envMethodErr exS exU exFd =
        [Event.setProcessing true,
          Event.toastError "Your card number is incomplete",
          Event.setProcessing false, Event.setProcessing false]
      ∧ appEvents (onSubmit envMethodErr exS exU exFd) = [] :=
  ⟨(tokenization_error_no_records envMethodErr exS exU exFd "pm_1"
      "Your card number is incomplete" rfl rfl rfl rfl).1,
    (tokenization_error_no_records envMethodErr exS exU exFd "pm_1"
      "Your card number is incomplete" rfl rfl rfl rfl).2.1⟩

/-- Claim C6: the submit control is enabled (not disabled) iff the Stripe
object is ready, a clientSecret is present (non-empty), and no submission is
processing. -/
theorem submit_enabled_iff (r : Bool) (cs : String) (p : Bool) :
    submitDisabled r cs p = false ↔ (r = true ∧ cs ≠ "" ∧ p = false) := by
  cases r <;> cases p <;>
    simp [submitDisabled, beq_eq_false_iff_ne]

/-- Claim C10: the computed total treats a missing fee field as `0` (it
equals the sum of the fields with default `0`), while the persisted
application record stores the raw, possibly absent, `applicationFees` and
`serviceCharge` values unchanged. -/
theorem fee_defaulting_vs_raw_persistence (s : Scholarship) (u : User)
    (fd : FormData) (payStat now : String) :
    totalAmount s = s.applicationFees.getD 0 + s.serviceCharge.getD 0
      ∧ (buildApplicationData s u fd payStat now).applicationFees
          = s.applicationFees
      ∧ (buildApplicationData s u fd payStat now).serviceCharge
          = s.serviceCharge := by
  refine ⟨?_, rfl, rfl⟩
  have h : ∀ o : Option Int, truthyOrZero o = o.getD 0 := by
    intro o
    cases o with
    | none => rfl
    | some v => by_cases h : v = 0 <;> simp [truthyOrZero, h]
  simp [totalAmount, h]

/-- Repeating the previous dependency value triggers no further effect run. -/
lemma depChangesAux_replicate (t : Int) (n : Nat) :
    depChangesAux t (List.replicate n t) = [] := by
  induction n with
  | zero => rfl
  | succ n ih => simp [List.replicate_succ, depChangesAux, ih]

/-- Stuttering the dependency value in the middle of a history adds no
effect runs. -/
lemma depChangesAux_stutter (t : Int) (m : Nat) (rest : List Int) :
    depChangesAux t (List.replicate m t ++ rest) = depChangesAux t rest := by
  induction m with
  | zero => rfl
  | succ m ih => simp [List.replicate_succ, depChangesAux, ih]

/-- Claim C7: a payment-intent request is issued only with a positive
amount; over a constant positive history (the scholarship is immutable for
the page's lifetime) exactly one request is issued; a constant-zero history
issues none; repeating the same total issues nothing new (requests are
re-issued only when the total changes); and with no request the
clientSecret stays `""`, so the submit control is disabled in every state. -/
theorem intent_request_policy (hist : List Int) (t : Int) (n m : Nat)
    (rest : List Int) :
    (∀ x ∈ intentRequests hist, 0 < x)
      ∧ (0 < t → intentRequests (List.replicate (n + 1) t) = [t])
      ∧ intentRequests (List.replicate n 0) = []
      ∧ intentRequests (t :: (List.replicate m t ++ rest))
          = intentRequests (t :: rest)
      ∧ (∀ r p, submitDisabled r "" p = true) := by
  refine ⟨?_, ?_, ?_, ?_, ?_⟩
  · intro x hx
    simp [intentRequests, List.mem_filter] at hx
    exact hx.2
  · intro ht
    simp [intentRequests, List.replicate_succ, depChanges,
      depChangesAux_replicate, ht]
  · cases n with
    | zero => rfl
    | succ n =>
      simp [intentRequests, List.replicate_succ, depChanges,
        depChangesAux_replicate]
  · simp [intentRequests, depChanges, depChangesAux_stutter]
  · intro r p
    simp [submitDisabled]

/-- Witness for C7: a constant history of total `150` over three renders
issues exactly one request, for `150`. -/
theorem intent_request_policy_witness :
    (0 : Int) < 150
      ∧ intentRequests (List.replicate 3 (150 : Int)) = [150] :=
  ⟨by decide,
    (intent_request_policy [] 150 2 0 []).2.1 (by decide)⟩

/-- The record built for `/applications` carries the paymentStatus it was
built with. -/
@[simp] lemma buildApplicationData_paymentStatus (s : Scholarship) (u : User)
    (fd : FormData) (payStat now : String) :
    (buildApplicationData s u fd payStat now).paymentStatus = payStat := rfl

/-- The record built for `/payments` carries the amount it was built with. -/
@[simp] lemma buildPaymentData_amount (s : Scholarship) (u : User)
    (txId : String) (amount : Int) (now : String) :
    (buildPaymentData s u txId amount now).amount = amount := rfl

/-- Any payment record persisted by a run carries the computed total. -/
lemma payEvents_amount (env : Env) (s : Scholarship) (u : User)
    (fd : FormData) :
    ∀ p ∈ payEvents (onSubmit env s u fd), p.amount = totalAmount s := by
  obtain ⟨sr, er, cp, cpm, ccp, pa, pp, nA, nP⟩ := env
  cases sr with
  | false => simp [onSubmit, payEvents]
  | true => cases er with
    | false => simp [onSubmit, payEvents]
    | true => cases cp with
      | false => simp [onSubmit, payEvents]
      | true =>
        rcases cpm with ⟨_ | pmsg, pmId⟩ | _ <;>
          rcases ccp with ⟨_ | cmsg, piId, piSt⟩ | _ <;>
          rcases pa with u1 | _ <;>
          rcases pp with u2 | _ <;>
          simp_all [onSubmit, tryEvents, payEvents] <;>
          (try split_ifs <;> simp_all [payEvents])

set_option maxHeartbeats 1000000 in
/-- Claim C3 (amended): a payment record is persisted only if a paid
application record is; the full equivalence holds whenever the POST to
`/payments` resolves (it fails when that POST rejects after the paid
application record was already persisted). -/
theorem payment_record_iff_paid_application (env : Env) (s : Scholarship)
    (u : User) (fd : FormData) :
    (payEvents (onSubmit env s u fd) ≠ [] →
        ∃ a ∈ appEvents (onSubmit env s u fd), a.paymentStatus = "paid")
      ∧ (env.postPayment = CallOutcome.ok () →
          (payEvents (onSubmit env s u fd) ≠ [] ↔
            ∃ a ∈ appEvents (onSubmit env s u fd),
              a.paymentStatus = "paid")) := by
  obtain ⟨sr, er, cp, cpm, ccp, pa, pp, nA, nP⟩ := env
  cases sr with
  | false => simp [onSubmit, appEvents, payEvents]
  | true => cases er with
    | false => simp [onSubmit, appEvents, payEvents]
    | true => cases cp with
      | false => simp [onSubmit, appEvents, payEvents]
      | true =>
        rcases cpm with ⟨_ | pmsg, pmId⟩ | _ <;>
          rcases ccp with ⟨_ | cmsg, piId, piSt⟩ | _ <;>
          rcases pa with u1 | _ <;>
          rcases pp with u2 | _ <;>
          simp_all [onSubmit, tryEvents, appEvents, payEvents] <;>
          (try split_ifs <;> simp_all [appEvents, payEvents])

set_option maxHeartbeats 1000000 in
/-- Counterexample to claim C3 as stated: when the POST to `/payments`
rejects after a successful confirmation, a paid application record is
persisted but no payment record is, so the biconditional fails. -/
theorem payment_record_iff_paid_application_cex :
    ¬ ((payEvents (onSubmit envPayThrows exS exU exFd) ≠ []) ↔
        ∃ a ∈ appEvents (onSubmit envPayThrows exS exU exFd),
          a.paymentStatus = "paid") := by
  decide

/-- Witness for the amended C3 at a fully successful submission. -/
theorem payment_record_iff_paid_application_witness :
    payEvents (onSubmit envSuccess exS exU exFd) ≠ [] ↔
      ∃ a ∈ appEvents (onSubmit envSuccess exS exU exFd),
        a.paymentStatus = "paid" :=
  (payment_record_iff_paid_application envSuccess exS exU exFd).2 rfl

/-- Claim C4 (amended): no application record is persisted before the
charge-confirmation await resolves (and none at all if it never resolves);
once it resolves, and provided the POST to `/applications` resolves, exactly
one application record is persisted, `"unpaid"` on a confirmation error,
`"paid"` on status `succeeded`, and none when confirmation resolves with
neither (the claim as stated fails when the POST rejects: then zero records
are written). -/
theorem application_written_after_confirmation (env : Env) (s : Scholarship)
    (u : User) (fd : FormData)
    (hpost : env.postApplication = CallOutcome.ok ()) :
    appEvents ((onSubmit env s u fd).takeWhile
        (fun e => !(isConfirmResolved e))) = []
      ∧ (∀ cr : ConfirmResult,
          Event.confirmResolved cr ∈ onSubmit env s u fd →
            (∀ msg, cr.error = some msg →
                appEvents (onSubmit env s u fd)
                  = [buildApplicationData s u fd "unpaid" env.nowApp])
              ∧ (cr.error = none → cr.paymentIntent.status = "succeeded" →
                  appEvents (onSubmit env s u fd)
                    = [buildApplicationData s u fd "paid" env.nowApp])
              ∧ (cr.error = none → cr.paymentIntent.status ≠ "succeeded" →
                  appEvents (onSubmit env s u fd) = []))
      ∧ ((∀ cr : ConfirmResult,
            Event.confirmResolved cr ∉ onSubmit env s u fd) →
          appEvents (onSubmit env s u fd) = []) := by
  obtain ⟨sr, er, cp, cpm, ccp, pa, pp, nA, nP⟩ := env
  cases sr with
  | false => simp [onSubmit, appEvents]
  | true => cases er with
    | false => simp [onSubmit, appEvents]
    | true => cases cp with
      | false => simp [onSubmit, appEvents, isConfirmResolved,
          List.takeWhile]
      | true =>
        rcases cpm with ⟨_ | pmsg, pmId⟩ | _ <;>
          rcases ccp with ⟨_ | cmsg, piId, piSt⟩ | _ <;>
          rcases pa with u1 | _ <;>
          rcases pp with u2 | _ <;>
          simp_all [onSubmit, tryEvents, appEvents, isConfirmResolved,
            List.takeWhile] <;>
          (try split_ifs <;>
            simp_all [appEvents, isConfirmResolved, List.takeWhile])

set_option maxHeartbeats 1000000 in
/-- Counterexample to claim C4 as stated: confirmation resolves with an
error, but the POST to `/applications` rejects, so zero (not exactly one)
application records are written for the attempt. -/
theorem application_written_after_confirmation_cex :
    (Event.confirmResolved ⟨some "Your card was declined", ⟨"", ""⟩⟩
        ∈ onSubmit envAppThrows exS exU exFd)
      ∧ appEvents (onSubmit envAppThrows exS exU exFd) = [] := by
  decide

/-- Witness for the amended C4 at a fully successful submission. -/
theorem application_written_after_confirmation_witness :
    appEvents (onSubmit envSuccess exS exU exFd)
      = [buildApplicationData exS exU exFd "paid" envSuccess.nowApp] :=
  ((application_written_after_confirmation envSuccess exS exU exFd rfl).2.1
      ⟨none, ⟨"pi_123", "succeeded"⟩⟩ (by decide)).2.1 rfl rfl

/-- Claim C5 (amended): the processing flag is cleared on exit on every path
that set it; when an exception escapes to the catch block, the generic
notification is surfaced, no payment record is persisted, no navigation
happens, and no application record is persisted either — except that a paid
application record remains when the exception came from the later
`/payments` POST (the claim as stated, "no record persisted", fails there). -/
theorem exception_path_behavior (env : Env) (s : Scholarship) (u : User)
    (fd : FormData) :
    (Event.setProcessing true ∈ onSubmit env s u fd →
        (onSubmit env s u fd).getLast? = some (Event.setProcessing false))
      ∧ (uncaughtExn env = true →
          Event.toastError "Payment processing failed" ∈ onSubmit env s u fd
            ∧ payEvents (onSubmit env s u fd) = []
            ∧ (∀ n, Event.navigate n ∉ onSubmit env s u fd)
            ∧ (appEvents (onSubmit env s u fd) = []
                ∨ (env.postPayment = CallOutcome.throws
                    ∧ appEvents (onSubmit env s u fd)
                        = [buildApplicationData s u fd "paid"
                            env.nowApp]))) := by
  obtain ⟨sr, er, cp, cpm, ccp, pa, pp, nA, nP⟩ := env
  cases sr with
  | false => simp [onSubmit, uncaughtExn]
  | true => cases er with
    | false => simp [onSubmit, uncaughtExn]
    | true => cases cp with
      | false => simp [onSubmit, uncaughtExn, appEvents, payEvents]
      | true =>
        rcases cpm with ⟨_ | pmsg, pmId⟩ | _ <;>
          rcases ccp with ⟨_ | cmsg, piId, piSt⟩ | _ <;>
          rcases pa with u1 | _ <;>
          rcases pp with u2 | _ <;>
          simp_all [onSubmit, tryEvents, appEvents, payEvents,
            uncaughtExn] <;>
          (try split_ifs <;> simp_all [appEvents, payEvents])

/-- Counterexample to claim C5 as stated: the `/payments` POST rejects, the
generic notification is surfaced, yet an application record was persisted
for the attempt. -/
theorem exception_path_behavior_cex :
    Event.toastError "Payment processing failed"
        ∈ onSubmit envPayThrows exS exU exFd
      ∧ appEvents (onSubmit envPayThrows exS exU exFd) ≠ [] := by
  decide

/-- Witness for the amended C5 on the rejected-`/payments` environment. -/
theorem exception_path_behavior_witness :
    Event.toastError "Payment processing failed"
        ∈ onSubmit envPayThrows exS exU exFd
      ∧ payEvents (onSubmit envPayThrows exS exU exFd) = [] :=
  ⟨((exception_path_behavior envPayThrows exS exU exFd).2 (by decide)).1,
    ((exception_path_behavior envPayThrows exS exU exFd).2 (by decide)).2.1⟩

/-- Claim C9: with both fee fields present and nonnegative, the total shown
in the order summary equals `a + b`, the payment-intent request carries
`a + b`, and every payment record persisted for the scholarship carries
amount `a + b`. -/
theorem displayed_and_charged_total (s : Scholarship) (a b : Int)
    (h1 : s.applicationFees = some a) (h2 : s.serviceCharge = some b)
    (h3 : 0 ≤ a) (h4 : 0 ≤ b) :
    totalAmount s = a + b
      ∧ (0 < a + b → intentRequests [totalAmount s] = [a + b])
      ∧ (∀ env u fd, ∀ p ∈ payEvents (onSubmit env s u fd),
          p.amount = a + b) := by
  have ht : totalAmount s = a + b := by
    by_cases ha : a = 0 <;> by_cases hb : b = 0 <;>
      simp [totalAmount, truthyOrZero, h1, h2, ha, hb]
  refine ⟨ht, ?_, ?_⟩
  · intro hpos
    simp [intentRequests, depChanges, depChangesAux, ht, hpos]
  · intro env u fd p hp
    simpa [ht] using payEvents_amount env s u fd p hp

/-- Witness for C9 at the concrete scholarship with fees 100 and 50. -/
theorem displayed_and_charged_total_witness :
    totalAmount exS = 150
      ∧ intentRequests [totalAmount exS] = [150] :=
  ⟨(displayed_and_charged_total exS 100 50 rfl rfl (by decide)
      (by decide)).1,
    (displayed_and_charged_total exS 100 50 rfl rfl (by decide)
      (by decide)).2.1 (by decide)⟩

end ScholarStream
